import Mathlib

/-
  Verification of the interactive-control and connectivity-probe state model
  of the canvas-smith repository.

  The embedding covers:
  - frontend/src/componenets/Button.vue: the props, the reactive flags
    isHovered/isPressed, the handlers handleClick and handleMouseLeave, the
    inline template handlers for mouseenter/mousedown/mouseup, and the
    computed buttonClasses function;
  - frontend/src/App.vue: the refs backendStatus/backendMessage/isConnected/
    isLoading and the async function testBackendConnection, including its
    try/catch/finally structure.

  Machine-level conventions of the embedding:
  - a ref holding a TS string that may be assigned a possibly-undefined
    field of an `any` value (data.backend_status) is modelled as
    Option String, none standing for JS undefined;
  - an async function that may reject is modelled as Except JsError _;
    the fetch outcome (rejection, or a Response with a status and a body
    whose JSON parse may fail) is an explicit input;
  - Response.ok is status in 200..299, per the Fetch standard.
-/

namespace CanvasSmith

/-! ## Button.vue: data model -/

/-- The `variant` prop of Button.vue: 'primary' | 'secondary'. -/
inductive Variant
  | primary
  | secondary
deriving DecidableEq

/-- The `size` prop of Button.vue: 'sm' | 'md' | 'lg'. -/
inductive Size
  | sm
  | md
  | lg
deriving DecidableEq

/-- A DOM MouseEvent, abstracted to an identity so that "carries the original
event" is expressible. -/
structure MouseEvent where
  eventId : Nat
deriving DecidableEq

/-- The full state of one Button.vue instance: the three props plus the two
reactive flags `isHovered` and `isPressed`. -/
structure ControlState where
  variant : Variant
  size : Size
  disabled : Bool
  isHovered : Bool
  isPressed : Bool
deriving DecidableEq

/-- Construction with the withDefaults defaults: hovered and pressed start
false (`ref(false)` for both). -/
def construct (variant : Variant) (size : Size) (disabled : Bool) : ControlState :=
  { variant := variant, size := size, disabled := disabled,
    isHovered := false, isPressed := false }

/-- The component's single emitted notification: `emit('click', event)`. -/
inductive ButtonEmit
  | click (event : MouseEvent)
deriving DecidableEq

/-! ## Button.vue: handlers -/

/-- `handleClick` from Button.vue lines 27-31: emits click with the original
event when `!props.disabled`, otherwise does nothing.  The source body
contains no assignment to any ref, so the state component of the result is
the input state in both branches. -/
def handleClick (s : ControlState) (event : MouseEvent) :
    ControlState × List ButtonEmit :=
  if !s.disabled then (s, [ButtonEmit.click event]) else (s, [])

/-- `handleMouseLeave` from Button.vue lines 33-36:
`isHovered.value = false; isPressed.value = false`. -/
def handleMouseLeave (s : ControlState) : ControlState :=
  { s with isHovered := false, isPressed := false }

/-- A pointer event delivered to the button element. -/
inductive PointerEvent
  | enter
  | leave
  | down
  | up
deriving DecidableEq

/-- The template's event bindings (Button.vue lines 87-95):
`@mouseenter="isHovered = true"`, `@mouseleave="handleMouseLeave"`,
`@mousedown="isPressed = true"`, `@mouseup="isPressed = false"`.
None of the four handlers reads `props.disabled`. -/
def stepControl (s : ControlState) : PointerEvent → ControlState
  | PointerEvent.enter => { s with isHovered := true }
  | PointerEvent.leave => handleMouseLeave s
  | PointerEvent.down => { s with isPressed := true }
  | PointerEvent.up => { s with isPressed := false }

/-- A sequence of pointer events applied in order. -/
def runEvents (s : ControlState) (events : List PointerEvent) : ControlState :=
  events.foldl stepControl s

/-! ## Button.vue: computed classes -/

/-- `buttonClasses` from Button.vue lines 37-84, translated clause for
clause.  JS `cond && 'str'` becomes `if cond then some str else none`
(none standing for the JS literal false) and the trailing
`.filter(Boolean)` becomes `List.filterMap id`; every string literal in the
source is non-empty, so the two filters agree. -/
def buttonClasses (s : ControlState) : List String :=
  let baseClasses : List String :=
    ["inline-flex", "items-center", "justify-center", "font-medium",
     "transition-all", "duration-300", "ease-out", "outline-none",
     "select-none", "relative", "overflow-hidden"]
  let sizeClasses : List String :=
    match s.size with
    | Size.sm => ["w-20", "h-8", "text-xs",
        if s.isHovered then "rounded-md" else "rounded-xl"]
    | Size.md => ["w-30", "h-10", "text-sm",
        if s.isHovered then "rounded-lg" else "rounded-2xl"]
    | Size.lg => ["w-40", "h-12", "text-base",
        if s.isHovered then "rounded-xl" else "rounded-3xl"]
  let variantClasses : List (Option String) :=
    match s.variant with
    | Variant.primary =>
      [some (if s.disabled
          then "bg-gray-300 text-gray-500 cursor-not-allowed"
          else "bg-canvas-accent text-white cursor-pointer"),
       if !s.disabled && s.isHovered
          then some "shadow-lg shadow-canvas-accent/30" else none,
       if !s.disabled && s.isPressed then some "scale-95" else none,
       if !s.disabled && s.isHovered && !s.isPressed
          then some "scale-102 -translate-y-0.5" else none]
    | Variant.secondary =>
      [some (if s.disabled
          then "bg-gray-100 text-gray-400 border border-gray-200 cursor-not-allowed"
          else "bg-canvas-surface text-canvas-text border border-gray-200 cursor-pointer hover:border-gray-300"),
       if !s.disabled && s.isHovered
          then some "shadow-lg shadow-black/10" else none,
       if !s.disabled && s.isPressed then some "scale-95" else none,
       if !s.disabled && s.isHovered && !s.isPressed
          then some "scale-101 -translate-y-0.5" else none]
  ((baseClasses.map some) ++ (sizeClasses.map some) ++ variantClasses).filterMap id

/-! ## App.vue: data model -/

/-- The shape-relevant view of a parsed non-null JSON value: the two fields
the code reads, each possibly undefined.  A JS property access on any
non-null value — object, array, string, number or boolean (primitives are
wrapped) — returns the property's value or undefined without throwing, so
every non-null parse result is faithfully captured by its two
projections. -/
structure JsonBody where
  backend_status : Option String
  message : Option String
deriving DecidableEq

/-- Outcome of `response.json()`: rejection (the body is not valid JSON),
resolution with JSON null (on which the subsequent property access throws a
TypeError), or resolution with a non-null value. -/
inductive BodyParse
  | invalid
  | nullBody
  | valid (data : JsonBody)
deriving DecidableEq

/-- Outcome of `fetch(...)`: transport-level rejection, or a Response with
an HTTP status code and a body. -/
inductive FetchOutcome
  | reject
  | response (status : Nat) (body : BodyParse)
deriving DecidableEq

/-- `Response.ok` per the Fetch standard: status in the range 200-299. -/
def responseOk (status : Nat) : Bool :=
  200 ≤ status && status ≤ 299

/-- The four refs of App.vue.  backendStatus and backendMessage are
Option String because the success path assigns fields of an `any` value
which may be undefined. -/
structure AppState where
  backendStatus : Option String
  backendMessage : Option String
  isConnected : Bool
  isLoading : Bool
deriving DecidableEq

/-- The refs' initial values (App.vue lines 6-9). -/
def initAppState : AppState :=
  { backendStatus := some "checking...",
    backendMessage := some "Connecting to backend...",
    isConnected := false,
    isLoading := true }

/-- The JS exceptions that can arise inside the try block: the fetch
rejection, the json() rejection, the TypeError from reading a property of
null, and the thrown `new Error(...)` on a non-ok status. -/
inductive JsError
  | fetchError
  | parseError
  | typeError
  | httpError (status : Nat)
deriving DecidableEq

/-- The state at the instant the GET request is initiated: the try block has
executed exactly `isLoading.value = true` before `await fetch(...)`. -/
def preFetchState (s : AppState) : AppState :=
  { s with isLoading := true }

/-- The try block of testBackendConnection after the fetch settles:
on rejection the error propagates; on a response, `response.ok` selects the
success path (parse the body, then `data.backend_status` — which throws a
TypeError when the parsed value is null, and otherwise yields the two
possibly-undefined fields — then the assignments and isConnected) or
`throw new Error(...)`. -/
def tryBlock (s : AppState) : FetchOutcome → Except JsError AppState
  | FetchOutcome.reject => Except.error JsError.fetchError
  | FetchOutcome.response status body =>
    if responseOk status then
      match body with
      | BodyParse.invalid => Except.error JsError.parseError
      | BodyParse.nullBody => Except.error JsError.typeError
      | BodyParse.valid data =>
          Except.ok { s with
            backendStatus := data.backend_status,
            backendMessage := data.message,
            isConnected := true }
    else
      Except.error (JsError.httpError status)

/-- The catch block: unconditionally sets the three failure values.
`console.error` is a side effect with no bearing on state. -/
def catchBlock (s : AppState) : AppState :=
  { s with
    backendStatus := some "disconnected",
    backendMessage := some "Failed to connect to backend",
    isConnected := false }

/-- The finally block: `isLoading.value = false`. -/
def finallyBlock (s : AppState) : AppState :=
  { s with isLoading := false }

/-- `testBackendConnection` from App.vue lines 15-36, as a function of the
state at call time and the outcome of the single fetch.  The result is the
async function's settled promise: Except.error would be an exception
propagating to the caller; the catch clause catches every error of the try
block and does not rethrow, and the finally clause runs on the way out. -/
def testBackendConnection (s : AppState) (o : FetchOutcome) :
    Except JsError AppState :=
  let s1 := preFetchState s
  let afterCatch : Except JsError AppState :=
    match tryBlock s1 o with
    | Except.ok s2 => Except.ok s2
    | Except.error _ => Except.ok (catchBlock s1)
  match afterCatch with
  | Except.ok s3 => Except.ok (finallyBlock s3)
  | Except.error e => Except.error e

/-- The state after a call settles (the Except.error branch is unreachable,
see the totality theorem; it is given the call-time state as a formal
default). -/
def settleCheck (s : AppState) (o : FetchOutcome) : AppState :=
  match testBackendConnection s o with
  | Except.ok s2 => s2
  | Except.error _ => s

/-- An outcome of the fetch that the code treats as failure: transport
rejection, non-2xx status, or 2xx with a body that is unparseable or JSON
null (the field access throws). -/
def isFailureOutcome : FetchOutcome → Bool
  | FetchOutcome.reject => true
  | FetchOutcome.response status body =>
    if responseOk status then
      match body with
      | BodyParse.invalid => true
      | BodyParse.nullBody => true
      | BodyParse.valid _ => false
    else true

/-- The single final state every failure class produces. -/
def failedFinalState : AppState :=
  { backendStatus := some "disconnected",
    backendMessage := some "Failed to connect to backend",
    isConnected := false,
    isLoading := false }

/-! ## Theorems -/

/-- C1: for every ControlState and every event, handleClick emits exactly
one Click notification carrying the original event if and only if disabled
is false at call time; when disabled is true the call emits nothing (and,
being a total function, raises no error). -/
theorem handleClick_emits_iff_enabled (s : ControlState) (e : MouseEvent) :
    ((handleClick s e).2 = [ButtonEmit.click e] ↔ s.disabled = false) ∧
    (s.disabled = true → (handleClick s e).2 = []) := by
  cases hd : s.disabled <;> simp [handleClick, hd]

/-- Witness for C1 at the default construction and a concrete event. -/
theorem handleClick_emits_iff_enabled_witness :
    ((handleClick (construct Variant.primary Size.md false) ⟨0⟩).2 =
        [ButtonEmit.click ⟨0⟩] ↔
      (construct Variant.primary Size.md false).disabled = false) ∧
    ((construct Variant.primary Size.md false).disabled = true →
      (handleClick (construct Variant.primary Size.md false) ⟨0⟩).2 = []) :=
  handleClick_emits_iff_enabled (construct Variant.primary Size.md false) ⟨0⟩

/-- C2: every failure outcome of the probe — transport rejection, non-2xx
status, or 2xx with an unparseable body — settles in the identical final
state: status-label "disconnected", message "Failed to connect to backend",
isConnected false, isLoading false, whatever the state at call time. -/
theorem check_failure_states_identical (s : AppState) (o : FetchOutcome)
    (h : isFailureOutcome o = true) :
    testBackendConnection s o = Except.ok failedFinalState := by
  cases o with
  | reject =>
      simp [testBackendConnection, tryBlock, preFetchState, catchBlock,
        finallyBlock, failedFinalState]
  | response status body =>
      cases hok : responseOk status with
      | true =>
          cases body with
          | invalid =>
              simp [testBackendConnection, tryBlock, hok, preFetchState,
                catchBlock, finallyBlock, failedFinalState]
          | nullBody =>
              simp [testBackendConnection, tryBlock, hok, preFetchState,
                catchBlock, finallyBlock, failedFinalState]
          | valid data =>
              simp [isFailureOutcome, hok] at h
      | false =>
          simp [testBackendConnection, tryBlock, hok, preFetchState,
            catchBlock, finallyBlock, failedFinalState]

/-- Witness for C2 at a transport rejection from the initial state. -/
theorem check_failure_states_identical_witness :
    isFailureOutcome FetchOutcome.reject = true ∧
    testBackendConnection initAppState FetchOutcome.reject =
      Except.ok failedFinalState :=
  ⟨by decide,
   check_failure_states_identical initAppState FetchOutcome.reject (by decide)⟩

/-- C3: a 2xx response whose JSON body carries string fields backend_status
and message settles in {connected, message = body.message, status-label =
body.backend_status}, with isLoading cleared. -/
theorem check_success_state (s : AppState) (status : Nat) (bs m : String)
    (h : responseOk status = true) :
    testBackendConnection s
        (FetchOutcome.response status (BodyParse.valid ⟨some bs, some m⟩)) =
      Except.ok { backendStatus := some bs, backendMessage := some m,
                  isConnected := true, isLoading := false } := by
  simp [testBackendConnection, tryBlock, h, preFetchState, finallyBlock]

/-- Witness for C3: the spec scenario, HTTP 200 with
`\x7bbackend_status:"ok", message:"ready"\x7d`. -/
theorem check_success_state_witness :
    responseOk 200 = true ∧
    testBackendConnection initAppState
        (FetchOutcome.response 200 (BodyParse.valid ⟨some "ok", some "ready"⟩)) =
      Except.ok { backendStatus := some "ok", backendMessage := some "ready",
                  isConnected := true, isLoading := false } :=
  ⟨by decide, check_success_state initAppState 200 "ok" "ready" (by decide)⟩

/-- C4 counterexample: with disabled=true, the pointer events mouseenter and
mousedown reach a state with hovered=true respectively pressed=true — the
handlers never consult disabled, so the claimed invariant fails. -/
theorem disabled_control_hover_reachable :
    ((runEvents (construct Variant.primary Size.md true)
        [PointerEvent.enter]).disabled = true ∧
     (runEvents (construct Variant.primary Size.md true)
        [PointerEvent.enter]).isHovered = true) ∧
    (runEvents (construct Variant.primary Size.md true)
        [PointerEvent.enter, PointerEvent.down]).isPressed = true := by
  decide

/-- C4 amended: hovered and pressed are forced false when the pointer leaves
the control's bounds (mouseleave), in every state; disabled=true does not
force them false — the mouseenter and mousedown handlers set hovered
respectively pressed to true while leaving disabled unchanged, so they act
the same on a disabled control. -/
theorem pointer_handlers_ignore_disabled (s : ControlState) :
    ((stepControl s PointerEvent.leave).isHovered = false ∧
     (stepControl s PointerEvent.leave).isPressed = false) ∧
    (stepControl s PointerEvent.enter).isHovered = true ∧
    (stepControl s PointerEvent.down).isPressed = true ∧
    (stepControl s PointerEvent.enter).disabled = s.disabled ∧
    (stepControl s PointerEvent.down).disabled = s.disabled :=
  ⟨⟨rfl, rfl⟩, rfl, rfl, rfl, rfl⟩

/-- C5 counterexample: a 2xx response whose body is valid JSON but lacks the
backend_status and message fields — the empty object — settles connected,
not disconnected: the code performs no shape validation, reading the two
fields as undefined. -/
theorem valid_body_missing_fields_connected :
    (settleCheck initAppState
        (FetchOutcome.response 200 (BodyParse.valid ⟨none, none⟩))).isConnected
      = true ∧
    (settleCheck initAppState
        (FetchOutcome.response 200 (BodyParse.valid ⟨none, none⟩))).backendStatus
      ≠ some "disconnected" := by
  decide

/-- C5 amended: on a 2xx response, failure (the uniform disconnected state)
occurs exactly when the body is not valid JSON or is JSON null, whose field
access throws into the catch; a non-null valid JSON body settles connected
whether or not the backend_status and message fields are present, the
absent fields surfacing as undefined. -/
theorem nonnull_body_connects_invalid_or_null_fails (s : AppState)
    (status : Nat) (h : responseOk status = true) :
    testBackendConnection s (FetchOutcome.response status BodyParse.invalid) =
      Except.ok failedFinalState ∧
    testBackendConnection s (FetchOutcome.response status BodyParse.nullBody) =
      Except.ok failedFinalState ∧
    ∀ data : JsonBody,
      (settleCheck s
        (FetchOutcome.response status (BodyParse.valid data))).isConnected
        = true := by
  refine ⟨?_, ?_, ?_⟩
  · simp [testBackendConnection, tryBlock, h, preFetchState, catchBlock,
      finallyBlock, failedFinalState]
  · simp [testBackendConnection, tryBlock, h, preFetchState, catchBlock,
      finallyBlock, failedFinalState]
  · intro data
    simp [settleCheck, testBackendConnection, tryBlock, h, preFetchState,
      finallyBlock]

/-- Witness for the C5 amended theorem at status 200 from the initial
state. -/
theorem nonnull_body_connects_invalid_or_null_fails_witness :
    responseOk 200 = true ∧
    (testBackendConnection initAppState
        (FetchOutcome.response 200 BodyParse.invalid) =
      Except.ok failedFinalState ∧
    testBackendConnection initAppState
        (FetchOutcome.response 200 BodyParse.nullBody) =
      Except.ok failedFinalState ∧
    ∀ data : JsonBody,
      (settleCheck initAppState
        (FetchOutcome.response 200 (BodyParse.valid data))).isConnected
        = true) :=
  ⟨by decide,
   nonnull_body_connects_invalid_or_null_fails initAppState 200 (by decide)⟩

/-- C6 counterexample: on a re-invocation after a failed check, the state at
the instant the request is initiated still carries the previous message
"Failed to connect to backend", not "Connecting to backend..." — the
function sets only isLoading before the fetch and never resets the
message. -/
theorem recheck_retains_stale_message :
    (preFetchState (settleCheck initAppState FetchOutcome.reject)).isLoading
      = true ∧
    (preFetchState (settleCheck initAppState FetchOutcome.reject)).backendMessage
      ≠ some "Connecting to backend..." := by
  decide

/-- C6 amended: the checking presentation {status-label "checking...",
message "Connecting to backend...", isLoading} holds at mount because those
are the refs' initial values; each invocation sets isLoading=true before
initiating the request but leaves the message and status label at their
prior values, so only the mount-time call displays the connecting
message. -/
theorem initial_checking_state_and_prefetch :
    (initAppState.backendStatus = some "checking..." ∧
     initAppState.backendMessage = some "Connecting to backend..." ∧
     initAppState.isLoading = true) ∧
    ∀ s : AppState,
      (preFetchState s).isLoading = true ∧
      (preFetchState s).backendMessage = s.backendMessage ∧
      (preFetchState s).backendStatus = s.backendStatus :=
  ⟨⟨rfl, rfl, rfl⟩, fun _ => ⟨rfl, rfl, rfl⟩⟩

/-- C7: immediately after handleMouseLeave, hovered and pressed are both
false, regardless of their prior values. -/
theorem mouseLeave_clears_hover_and_press (s : ControlState) :
    (handleMouseLeave s).isHovered = false ∧
    (handleMouseLeave s).isPressed = false :=
  ⟨rfl, rfl⟩

/-- C8: every invocation of the probe runs to completion for every fetch
outcome — the catch clause absorbs every error of the try block, so the
settled promise is never a rejection — and the finally clause leaves
isLoading=false in the final state. -/
theorem check_never_throws_and_clears_loading (s : AppState)
    (o : FetchOutcome) :
    ∃ s2, testBackendConnection s o = Except.ok s2 ∧ s2.isLoading = false := by
  cases htb : tryBlock (preFetchState s) o with
  | error e =>
      exact ⟨finallyBlock (catchBlock (preFetchState s)),
        by simp [testBackendConnection, htb], rfl⟩
  | ok s2 =>
      exact ⟨finallyBlock s2, by simp [testBackendConnection, htb], rfl⟩

/-- C9: handleClick leaves the entire component state unchanged in both the
emitting and the suppressed branch — the source body contains no assignment,
only a conditional emit. -/
theorem handleClick_preserves_state (s : ControlState) (e : MouseEvent) :
    (handleClick s e).1 = s := by
  unfold handleClick
  split <;> rfl

/-- C10: with disabled=true, the derived class list contains none of the
press and hover interaction-effect classes, for all variants, sizes and
hover/press flag values. -/
theorem buttonClasses_disabled_no_effects (s : ControlState)
    (hd : s.disabled = true) :
    "scale-95" ∉ buttonClasses s ∧
    "shadow-lg shadow-canvas-accent/30" ∉ buttonClasses s ∧
    "shadow-lg shadow-black/10" ∉ buttonClasses s ∧
    "scale-102 -translate-y-0.5" ∉ buttonClasses s ∧
    "scale-101 -translate-y-0.5" ∉ buttonClasses s := by
  rcases s with ⟨v, sz, d, hov, pr⟩
  cases d with
  | false => exact Bool.noConfusion hd
  | true => cases v <;> cases sz <;> cases hov <;> cases pr <;> decide

/-- Witness for C10 at a concrete disabled state. -/
theorem buttonClasses_disabled_no_effects_witness :
    (construct Variant.primary Size.md true).disabled = true ∧
    ("scale-95" ∉ buttonClasses (construct Variant.primary Size.md true) ∧
     "shadow-lg shadow-canvas-accent/30" ∉
        buttonClasses (construct Variant.primary Size.md true) ∧
     "shadow-lg shadow-black/10" ∉
        buttonClasses (construct Variant.primary Size.md true) ∧
     "scale-102 -translate-y-0.5" ∉
        buttonClasses (construct Variant.primary Size.md true) ∧
     "scale-101 -translate-y-0.5" ∉
        buttonClasses (construct Variant.primary Size.md true)) :=
  ⟨rfl, buttonClasses_disabled_no_effects
    (construct Variant.primary Size.md true) rfl⟩

end CanvasSmith
